import Mathlib

/-!
A shallow embedding of the check-dist core (`check_dist/_core.py`): platform
extension translation, fnmatch-style glob matching, the two pattern matchers,
archive listing, the hatch inclusion-set resolver and the distribution checks,
followed by theorems settling the specification claims.

Conventions of the embedding:
* Python strings are `String`, lists are `List`, sets are `List` with
  membership semantics (`sortedDedup` renders Python `sorted(set(..))`).
* The ambient `sys.platform` is passed explicitly as the `plat` argument;
  `fnmatch` case folding is the identity, as on the posix platforms.
* Filesystem and subprocess collaborators (directory listings, archive
  member tables, the `git` invocation outcome) are passed as explicit data.
* Recursions that Python drives by index arithmetic use a fuel argument that
  starts at least as large as the measured input, so they never run dry and
  every definition stays structurally recursive (kernel-evaluable).
-/

set_option maxRecDepth 10000

namespace CheckDist

/-- Python `s.startswith(pre)`. -/
def pyStartswith (s pre : String) : Bool := pre.data.isPrefixOf s.data

/-- Python `s.endswith(post)`, as reversed prefix testing. -/
def pyEndswith (s post : String) : Bool := post.data.reverse.isPrefixOf s.data.reverse

/-- Python `os.path.basename`: everything after the last slash. -/
def pyBasename (p : String) : String :=
  String.mk ((p.data.reverse.takeWhile (fun c => c != '/')).reverse)

/-- Python `s.lstrip(c)` for a one-character strip set. -/
def pyLstrip (s : String) (c : Char) : String :=
  String.mk (s.data.dropWhile (fun d => d == c))

/-- Python `s.rstrip(c)` for a one-character strip set. -/
def pyRstrip (s : String) (c : Char) : String :=
  String.mk ((s.data.reverse.dropWhile (fun d => d == c)).reverse)

/-- Python `s.strip(c)` for a one-character strip set. -/
def pyStrip (s : String) (c : Char) : String := pyRstrip (pyLstrip s c) c

/-- Python `s[:-k]` for `k > 0`: drop the last `k` characters. -/
def strDropRight (s : String) (k : Nat) : String :=
  String.mk (s.data.take (s.data.length - k))

/-- Substring test on character lists (Python `needle in hay`). -/
def hasSubstr (hay needle : List Char) : Bool :=
  needle.isPrefixOf hay ||
    match hay with
    | [] => false
    | _ :: t => hasSubstr t needle

/-- Python `needle in hay` on strings. -/
def pyContains (hay needle : String) : Bool := hasSubstr hay.data needle.data

/-- Python `os.path.join` for one component (posix rules). -/
def pathJoin (a b : String) : String :=
  if pyStartswith b "/" then b
  else if a == "" || pyEndswith a "/" then a ++ b
  else a ++ "/" ++ b

/-- Python `s.split(sep)` for a one-character separator: accumulator form. -/
def splitCharAux (c : Char) : List Char → List Char → List String
  | [], acc => [String.mk acc.reverse]
  | d :: rest, acc =>
    if d == c then String.mk acc.reverse :: splitCharAux c rest []
    else splitCharAux c rest (d :: acc)

/-- Python `s.split(sep)` for a one-character separator. -/
def splitChar (s : String) (c : Char) : List String := splitCharAux c s.data []

/-- Insert into an ascending list, keeping ascending order. -/
def insertSorted (x : String) : List String → List String
  | [] => [x]
  | y :: ys => if y < x then y :: insertSorted x ys else x :: y :: ys

/-- Python `sorted` on a list of strings (insertion sort; ascending). -/
def sortStrings : List String → List String
  | [] => []
  | x :: xs => insertSorted x (sortStrings xs)

/-- Collapse runs of equal adjacent strings. -/
def dedupAdj : List String → List String
  | [] => []
  | [x] => [x]
  | x :: y :: t => if x == y then dedupAdj (y :: t) else x :: dedupAdj (y :: t)

/-- Python `sorted(set(l))` for string lists. -/
def sortedDedup (l : List String) : List String := dedupAdj (sortStrings l)

/-- Loop-and-append rendered as concatenation of per-element outputs. -/
def concatMap (f : α → List β) : List α → List β
  | [] => []
  | x :: xs => f x ++ concatMap f xs

/-! ### fnmatch

`fnmatch.fnmatch` first compiles the pattern (`fnmatch.translate`) and then
matches the whole string against it.  The bracket scan keeps a leading `!`
and an immediately following `]` inside the bracket body, and a `[` without
a closing `]` stays literal. -/

/-- Match a character against the items of a bracket set: `a-b` ranges
(code-point interval), everything else literal. -/
def charInSet : List Char → Char → Bool
  | a :: '-' :: b :: rest, c => (decide (a ≤ c) && decide (c ≤ b)) || charInSet rest c
  | a :: rest, c => (a == c) || charInSet rest c
  | [], _ => false

/-- Scan for the closing `]` of a bracket expression, returning the body and
the remainder after the bracket. -/
def findClose : List Char → Option (List Char × List Char)
  | [] => none
  | ']' :: rest => some ([], rest)
  | c :: rest =>
    match findClose rest with
    | some (body, r) => some (c :: body, r)
    | none => none

/-- The bracket scan of `fnmatch.translate`: right after `[`, a `!` and then
a `]` belong to the body; with no closing `]` the `[` is literal. -/
def splitBracket (ps : List Char) : Option (List Char × List Char) :=
  match ps with
  | '!' :: ']' :: rest => (findClose rest).map (fun pr => ('!' :: ']' :: pr.1, pr.2))
  | '!' :: rest => (findClose rest).map (fun pr => ('!' :: pr.1, pr.2))
  | ']' :: rest => (findClose rest).map (fun pr => (']' :: pr.1, pr.2))
  | rest => findClose rest

/-- One compiled fnmatch token. -/
inductive GlobTok
  | star
  | any
  | lit (c : Char)
  | bracket (neg : Bool) (items : List Char)
deriving DecidableEq

/-- Compile an fnmatch pattern into tokens (mirrors `fnmatch.translate`).
The fuel starts at the pattern length and bounds it from above throughout,
so the `0` equation is never reached from `compilePat`. -/
def compileAux : Nat → List Char → List GlobTok
  | _, [] => []
  | 0, _ => []
  | n + 1, c :: ps =>
    if c == '*' then .star :: compileAux n ps
    else if c == '?' then .any :: compileAux n ps
    else if c == '[' then
      match splitBracket ps with
      | some (body, rest) =>
        (match body with
         | '!' :: items => GlobTok.bracket true items
         | items => GlobTok.bracket false items) :: compileAux n rest
      | none => .lit '[' :: compileAux n ps
    else .lit c :: compileAux n ps

/-- Compile an fnmatch pattern into tokens. -/
def compilePat (l : List Char) : List GlobTok := compileAux l.length l

/-- Match a token list against a string, anchored at both ends.  The fuel
starts at (and stays at least) tokens + characters, so it never runs dry. -/
def tokMatchAux : Nat → List GlobTok → List Char → Bool
  | _, [], s => s.isEmpty
  | 0, _ :: _, _ => false
  | n + 1, .star :: ts, s =>
    tokMatchAux n ts s ||
      (match s with
       | [] => false
       | _ :: t => tokMatchAux n (.star :: ts) t)
  | n + 1, .any :: ts, s =>
    (match s with
     | [] => false
     | _ :: t => tokMatchAux n ts t)
  | n + 1, .lit c :: ts, s =>
    (match s with
     | [] => false
     | c2 :: t => (c == c2) && tokMatchAux n ts t)
  | n + 1, .bracket neg items :: ts, s =>
    (match s with
     | [] => false
     | c :: t => (if neg then !(charInSet items c) else charInSet items c) && tokMatchAux n ts t)

/-- Match a token list against a string. -/
def tokMatch (ts : List GlobTok) (s : List Char) : Bool :=
  tokMatchAux (ts.length + s.length) ts s

/-- Python `fnmatch.fnmatch(name, pat)` (posix case folding: identity). -/
def fnmatchB (name pat : String) : Bool := tokMatch (compilePat pat.data) name.data

/-! ### Extension translation (`_PLATFORM_EXTENSION_MAP`) -/

/-- `_get_platform_key`. -/
def getPlatformKey (platform : String) : String :=
  if platform == "win32" then "win32"
  else if platform == "darwin" then "darwin"
  else "linux"

/-- `_PLATFORM_EXTENSION_MAP`, in dict insertion order. -/
def platformExtensionMap (key : String) : List (String × String) :=
  if key == "win32" then [(".so", ".pyd"), (".dylib", ".dll")]
  else if key == "linux" then [(".pyd", ".so"), (".dll", ".so")]
  else if key == "darwin" then [(".pyd", ".so"), (".dll", ".dylib")]
  else []

/-- The suffix-rewriting loop of `translate_extension`. -/
def findTranslate : List (String × String) → String → String
  | [], pattern => pattern
  | (src, dst) :: rest, pattern =>
    if pyEndswith pattern src then strDropRight pattern src.data.length ++ dst
    else findTranslate rest pattern

/-- `translate_extension`, with the running platform passed explicitly. -/
def translateExtension (platform pattern : String) : String :=
  findTranslate (platformExtensionMap (getPlatformKey platform)) pattern

/-- `_wrong_platform_extensions`. -/
def wrongPlatformExtensions (platform : String) : List String :=
  (platformExtensionMap (getPlatformKey platform)).map (fun e => e.1)

/-! ### Pattern matchers -/

/-- The `is_glob = any(c in translated for c in "*?[")` test. -/
def hasGlobChar (s : String) : Bool := ['*', '?', '['].any (fun c => s.data.contains c)

/-- `matches_pattern`. -/
def matchesPattern (plat : String) (filepath pattern : String) : Bool :=
  let translated := translateExtension plat pattern
  let is_glob := hasGlobChar translated
  (!is_glob &&
    (filepath == translated ||
     pyStartswith filepath (translated ++ "/") ||
     pyBasename filepath == translated)) ||
  fnmatchB filepath translated ||
  fnmatchB (pyBasename filepath) translated

/-- `_matches_hatch_pattern`. -/
def matchesHatchPattern (filepath pattern : String) : Bool :=
  let pat := pyLstrip pattern '/'
  let component := pyRstrip pat '/' ++ "/"
  (filepath == pat) ||
  pyStartswith filepath (pyRstrip pat '/' ++ "/") ||
  pyContains ("/" ++ filepath ++ "/") ("/" ++ component) ||
  fnmatchB filepath pat ||
  fnmatchB (pyBasename filepath) pat

/-! ### Hatch build configuration fragments

`Option` distinguishes an absent key from a present empty list where the
source tests `is not None`; keys only ever tested for truthiness are plain
lists (absent and empty behave identically there).  `force-include`
mappings are ordered source-to-destination pair lists. -/

/-- The `[tool.hatch.build.targets.sdist]` fragment. -/
structure SdistCfg where
  only_include : Option (List String)
  packages : Option (List String)
  includes : Option (List String)
  exclude : List String
  force_include : List (String × String)
deriving DecidableEq

/-- The `[tool.hatch.build]` fragment. -/
structure HatchBuildConfig where
  sdist : SdistCfg
  force_include : List (String × String)
  artifacts : List String
deriving DecidableEq

/-- The empty fragment (`{}` in the source). -/
def emptyHatchConfig : HatchBuildConfig := ⟨⟨none, none, none, [], []⟩, [], []⟩

/-- The hatch scan base: `only-include` if present, else `packages`
(shared by `_filter_extras_by_hatch` and `_sdist_expected_files`). -/
def sdistScanPaths (sdist_cfg : SdistCfg) : Option (List String) :=
  match sdist_cfg.only_include with
  | some l => some l
  | none => sdist_cfg.packages

/-- The `force-include` mapping in effect: the target-specific one when it
is truthy, else the global one (`a or b or {}`). -/
def effectiveForceInclude (hatch_config : HatchBuildConfig) : List (String × String) :=
  if hatch_config.sdist.force_include.isEmpty then hatch_config.force_include
  else hatch_config.sdist.force_include

/-- `_filter_extras_by_hatch`. -/
def filterExtrasByHatch (extras : List String) (hatch_config : HatchBuildConfig) : List String :=
  let force_paths := (effectiveForceInclude hatch_config).map (fun kv => pyStrip kv.2 '/')
  match sdistScanPaths hatch_config.sdist with
  | some a => extras.filter (fun p => (a ++ force_paths).contains p)
  | none =>
    match hatch_config.sdist.includes with
    | some incs => extras.filter (fun p => (incs ++ force_paths).contains p)
    | none => extras

/-- Step 1 of `_sdist_expected_files`: the base set from the scan paths,
else the `include` filter, else the whole VCS set. -/
def sdistBaseExpected (vcs_files : List String) (sdist_cfg : SdistCfg) : List String :=
  match sdistScanPaths sdist_cfg with
  | some ps =>
    vcs_files.filter (fun f =>
      ps.any (fun p => f == p || pyStartswith f (pyRstrip p '/' ++ "/")))
  | none =>
    if !(sdist_cfg.includes.getD []).isEmpty then
      vcs_files.filter (fun f =>
        (sdist_cfg.includes.getD []).any (fun inc => matchesHatchPattern f inc))
    else vcs_files

/-- Step 2 of `_sdist_expected_files`: apply the `exclude` patterns. -/
def sdistAfterExcludes (vcs_files : List String) (sdist_cfg : SdistCfg) : List String :=
  if !sdist_cfg.exclude.isEmpty then
    (sdistBaseExpected vcs_files sdist_cfg).filter (fun f =>
      !(sdist_cfg.exclude.any (fun exc => matchesHatchPattern f exc)))
  else sdistBaseExpected vcs_files sdist_cfg

/-- Step 3 of `_sdist_expected_files`: the VCS files living at or under a
`force-include` destination (stripped of surrounding slashes). -/
def forceIncludedVcs (vcs_files : List String) (hatch_config : HatchBuildConfig) : List String :=
  concatMap
    (fun dest0 =>
      vcs_files.filter (fun f =>
        f == pyStrip dest0 '/' ||
          pyStartswith f (pyRstrip (pyStrip dest0 '/') '/' ++ "/")))
    ((effectiveForceInclude hatch_config).map (fun kv => kv.2))

/-- `_sdist_expected_files` (list with set-membership semantics). -/
def sdistExpectedFiles (vcs_files : List String) (hatch_config : HatchBuildConfig) : List String :=
  sdistAfterExcludes vcs_files hatch_config.sdist ++ forceIncludedVcs vcs_files hatch_config

/-! ### Archive listing -/

/-- `member.name.split("/", 1)`: keep the part after the first slash if any. -/
def stripTopLevel (name : String) : String :=
  if pyContains name "/" then String.mk ((name.data.dropWhile (fun c => c != '/')).drop 1)
  else name

/-- `list_sdist_files`.  The tar member table (name, is-regular-file) and the
zip name list stand for what `tarfile`/`zipfile` would read at the path. -/
def listSdistFiles (sdist_path : String) (tarMembers : List (String × Bool))
    (zipNames : List String) : Except String (List String) :=
  if pyEndswith sdist_path ".tar.gz" then
    .ok (sortStrings ((tarMembers.filter (fun m => m.2)).map (fun m => stripTopLevel m.1)))
  else if pyEndswith sdist_path ".zip" then
    .ok (sortStrings ((zipNames.filter (fun n => !(pyEndswith n "/"))).map stripTopLevel))
  else .error ("Unknown sdist format: " ++ sdist_path)

/-- `list_wheel_files`: no extension dispatch, names kept verbatim. -/
def listWheelFiles (wheel_path : String) (zipNames : List String) :
    Except String (List String) :=
  .ok (sortStrings (zipNames.filter (fun n => !(pyEndswith n "/"))))

/-- The loop body of `find_dist_files`: each match overwrites its slot. -/
def findDistStep (output_dir : String) (acc : Option String × Option String) (name : String) :
    Option String × Option String :=
  if pyEndswith name ".tar.gz" || pyEndswith name ".zip" then
    (some (pathJoin output_dir name), acc.2)
  else if pyEndswith name ".whl" then (acc.1, some (pathJoin output_dir name))
  else acc

/-- `find_dist_files`: the directory-exists test and the `os.listdir` result
are passed in. -/
def findDistFiles (output_dir : String) (isDir : Bool) (listing : List String) :
    Option String × Option String :=
  if !isDir then (none, none)
  else listing.foldl (findDistStep output_dir) (none, none)

/-- First-defined fallback on options. -/
def optOr (o d : Option String) : Option String :=
  match o with
  | some y => some y
  | none => d

/-- Modelled from the spec's words, for comparison with `findDistFiles`: the
LAST listed name satisfying `p`, joined onto the directory. -/
def lastMatchJoin (output_dir : String) (p : String → Bool) : List String → Option String
  | [] => none
  | x :: xs =>
    optOr (lastMatchJoin output_dir p xs)
      (if p x then some (pathJoin output_dir x) else none)

/-- `get_vcs_files`: the collaborator outcome is `none` when the `git`
binary is missing, otherwise (returncode, stdout, stderr). -/
def getVcsFiles (gitResult : Option (Int × String × String)) : Except String (List String) :=
  match gitResult with
  | none => .error "git not found – only git is currently supported for VCS tracking"
  | some (rc, stdout, stderr) =>
    if rc != 0 then .error ("git ls-files failed:\n" ++ stderr)
    else .ok (sortStrings ((splitChar stdout (Char.ofNat 0)).filter (fun f => !f.isEmpty)))

/-! ### Checking helpers -/

/-- `check_present`. -/
def checkPresent (plat : String) (files patterns : List String) (dist_type : String) :
    List String :=
  concatMap
    (fun pattern =>
      let translated := translateExtension plat pattern
      if !(files.any (fun f => matchesPattern plat f pattern)) then
        [dist_type ++ ": required pattern \x27" ++ pattern ++ "\x27 not found" ++
          (if translated != pattern then
            " (translated to \x27" ++ translated ++ "\x27 for " ++ plat ++ ")"
          else "")]
      else [])
    patterns

/-- The per-pattern `matching` list computed inside `check_absent`: files
matching the pattern, minus (when present patterns were supplied and the
list is non-empty) those also matching a present pattern. -/
def absentPatternMatches (plat : String) (files : List String) (pattern : String)
    (present_patterns : Option (List String)) : List String :=
  let matching := files.filter (fun f => matchesPattern plat f pattern)
  let pps := present_patterns.getD []
  if !matching.isEmpty && !pps.isEmpty then
    matching.filter (fun f => !(pps.any (fun pp => matchesPattern plat f pp)))
  else matching

/-- `check_absent`. -/
def checkAbsent (plat : String) (files patterns : List String) (dist_type : String)
    (present_patterns : Option (List String)) : List String :=
  concatMap
    (fun pattern =>
      let translated := translateExtension plat pattern
      let matching := absentPatternMatches plat files pattern present_patterns
      if !matching.isEmpty then
        [dist_type ++ ": unwanted pattern \x27" ++ pattern ++ "\x27 matched: " ++
          String.intercalate ", " matching ++
          (if translated != pattern then
            " (translated to \x27" ++ translated ++ "\x27 for " ++ plat ++ ")"
          else "")]
      else [])
    patterns

/-- `os.path.splitext(p)[1]` (posix): extension from the last dot of the
basename, empty when the basename is all leading dots. -/
def pySplitextExt (p : String) : String :=
  let r := (pyBasename p).data.reverse
  let tl := r.takeWhile (fun c => c != '.')
  if tl.length == r.length then ""
  else if ((r.drop (tl.length + 1)).reverse).any (fun c => c != '.') then
    String.mk ('.' :: tl.reverse)
  else ""

/-- `check_wrong_platform_extensions`. -/
def checkWrongPlatformExtensions (plat : String) (files : List String) (dist_type : String) :
    List String :=
  let wrong_exts := wrongPlatformExtensions plat
  concatMap
    (fun f =>
      concatMap
        (fun ext =>
          if pyEndswith f ext then
            [dist_type ++ ": \x27" ++ f ++ "\x27 uses extension \x27" ++ ext ++
              "\x27 which is incorrect for " ++ plat ++ " (expected \x27" ++
              pySplitextExt (translateExtension plat f) ++ "\x27)"]
          else [])
        wrong_exts)
    files

/-! ### sdist-vs-VCS reconciliation -/

/-- `_GENERATED_SDIST_FILES`. -/
def GENERATED_SDIST_FILES : List String := ["PKG-INFO"]

/-- `_COMMON_SDIST_ABSENT`. -/
def COMMON_SDIST_ABSENT : List String :=
  [".copier-answers.yaml", "Makefile", ".github", "dist", "docs", "examples", "tests"]

/-- The cleaned `sdist_set`: generated metadata removed. -/
def sdistCleanFiles (sdist_files : List String) : List String :=
  sdist_files.filter (fun f =>
    !(GENERATED_SDIST_FILES.contains f) && !(pyContains f ".egg-info/") &&
      !(pyEndswith f ".egg-info"))

/-- The `extra` list of `check_sdist_vs_vcs`. -/
def sdistExtra (plat : String) (sdist_files vcs_files : List String)
    (hatch_config : HatchBuildConfig) : List String :=
  let sdist_set := sdistCleanFiles sdist_files
  let extra := sortedDedup (sdist_set.filter (fun f => !(vcs_files.contains f)))
  if !hatch_config.artifacts.isEmpty then
    extra.filter (fun f => !(hatch_config.artifacts.any (fun art => matchesPattern plat f art)))
  else extra

/-- The `missing` list of `check_sdist_vs_vcs`. -/
def sdistMissing (plat : String) (sdist_files vcs_files : List String)
    (hatch_config : HatchBuildConfig) (sdist_absent : Option (List String)) : List String :=
  let expected := sdistExpectedFiles vcs_files hatch_config
  let sdist_set := sdistCleanFiles sdist_files
  let missing0 := sortedDedup (expected.filter (fun f => !(sdist_set.contains f)))
  let missing1 := missing0.filter (fun f => !(pyStartswith f "."))
  let all_absent := COMMON_SDIST_ABSENT ++ sdist_absent.getD []
  missing1.filter (fun f => !(all_absent.any (fun pat => matchesPattern plat f pat)))

/-- `check_sdist_vs_vcs`. -/
def checkSdistVsVcs (plat : String) (sdist_files vcs_files : List String)
    (hatch_config : HatchBuildConfig) (sdist_absent : Option (List String)) : List String :=
  let extra := sdistExtra plat sdist_files vcs_files hatch_config
  let missing := sdistMissing plat sdist_files vcs_files hatch_config sdist_absent
  (if !extra.isEmpty then
    ["\nsdist contains files not tracked by VCS:\n\t" ++ String.intercalate "\n\t" extra]
  else []) ++
  (if !missing.isEmpty then
    ["\nVCS-tracked files missing from sdist: \n\t" ++ String.intercalate "\n\t" missing]
  else [])

/-! ### The check engine (`check_dist`, lines after archives are located)

`sdistInfo`/`wheelInfo` pair each located archive path with its listed
members; `vcsResult` is the `get_vcs_files` outcome. -/

/-- Per-kind `present`/`absent` pattern lists. -/
structure KindCfg where
  present : List String
  absent : List String
deriving DecidableEq

/-- The assembled check-dist configuration. -/
structure CheckConfig where
  sdist : KindCfg
  wheel : KindCfg
deriving DecidableEq

/-- The checking phase of `check_dist`, from located archives to the
`(success, messages)` result. -/
def checkDistCore (plat : String) (sdistInfo wheelInfo : Option (String × List String))
    (preBuilt verbose : Bool) (config : CheckConfig) (hatch_config : HatchBuildConfig)
    (vcsResult : Except String (List String)) : Bool × List String :=
  let errors0 : List String :=
    if sdistInfo.isNone && wheelInfo.isNone then ["No distributions found after build"]
    else if preBuilt then
      (if sdistInfo.isNone then ["No sdist found in pre-built directory"] else []) ++
        (if wheelInfo.isNone then ["No wheel found in pre-built directory"] else [])
    else []
  let sdistPart : List String × List String :=
    match sdistInfo with
    | none => ([], [])
    | some (sdist_path, sdist_files) =>
      let msgs0 := ["\nsdist (" ++ pyBasename sdist_path ++ ") – " ++
        toString sdist_files.length ++ " file(s):"]
      let msgs1 := if verbose then msgs0 ++ sdist_files.map (fun f => "  " ++ f) else msgs0
      let vcsPart : List String × List String :=
        match vcsResult with
        | .ok vcs_files =>
          (msgs1, checkSdistVsVcs plat sdist_files vcs_files hatch_config
            (some config.sdist.absent))
        | .error exc => (msgs1 ++ ["  Warning: could not compare against VCS: " ++ exc], [])
      (vcsPart.1,
        vcsPart.2 ++
          checkPresent plat sdist_files config.sdist.present "sdist" ++
          checkAbsent plat sdist_files config.sdist.absent "sdist" (some config.sdist.present) ++
          checkWrongPlatformExtensions plat sdist_files "sdist")
  let wheelPart : List String × List String :=
    match wheelInfo with
    | none => ([], [])
    | some (wheel_path, wheel_files) =>
      let msgs0 := ["\nwheel (" ++ pyBasename wheel_path ++ ") – " ++
        toString wheel_files.length ++ " file(s):"]
      let msgs1 := if verbose then msgs0 ++ wheel_files.map (fun f => "  " ++ f) else msgs0
      (msgs1,
        checkPresent plat wheel_files config.wheel.present "wheel" ++
          checkAbsent plat wheel_files config.wheel.absent "wheel" (some config.wheel.present) ++
          checkWrongPlatformExtensions plat wheel_files "wheel")
  let errors := errors0 ++ sdistPart.2 ++ wheelPart.2
  let messages := sdistPart.1 ++ wheelPart.1
  if !errors.isEmpty then
    (false,
      messages ++ (("\n" ++ toString errors.length ++ " error(s) found:") ::
        errors.map (fun e => "  ERROR: " ++ e)))
  else (true, messages ++ ["\nAll checks passed!"])

/-- Concrete fragment for the second-resolver claim: both the target-specific
and the global level define a `force-include` mapping. -/
def c2Fragment : HatchBuildConfig := ⟨⟨some [], none, none, [], [("a", "y")]⟩, [("b", "x")], []⟩

/-- Concrete fragment for the exclude-overrides-scan-base claim. -/
def c5Fragment : HatchBuildConfig := ⟨⟨some ["pkg", "rust"], none, none, ["target"], []⟩, [], []⟩

/-! ## Helper lemmas -/

theorem mem_concatMap {f : α → List β} {l : List α} {b : β} :
    b ∈ concatMap f l ↔ ∃ a ∈ l, b ∈ f a := by
  induction l with
  | nil => simp [concatMap]
  | cons x xs ih => simp [concatMap, ih]

theorem mem_insertSorted {x a : String} {l : List String} :
    a ∈ insertSorted x l ↔ a = x ∨ a ∈ l := by
  induction l with
  | nil => simp [insertSorted]
  | cons y ys ih =>
    simp only [insertSorted]
    split
    · simp [ih]
      tauto
    · simp

theorem mem_sortStrings {a : String} {l : List String} :
    a ∈ sortStrings l ↔ a ∈ l := by
  induction l with
  | nil => simp [sortStrings]
  | cons x xs ih => simp [sortStrings, mem_insertSorted, ih]

theorem mem_dedupAdj {a : String} {l : List String} :
    a ∈ dedupAdj l ↔ a ∈ l := by
  induction l with
  | nil => simp [dedupAdj]
  | cons x t ih =>
    cases t with
    | nil => simp [dedupAdj]
    | cons y t2 =>
      simp only [dedupAdj]
      split
      · next hxy =>
        rw [ih]
        have hxy2 : x = y := by simpa using hxy
        subst hxy2
        simp [List.mem_cons]
      · simp [List.mem_cons, ih]

theorem mem_sortedDedup {a : String} {l : List String} :
    a ∈ sortedDedup l ↔ a ∈ l := by
  rw [sortedDedup, mem_dedupAdj, mem_sortStrings]

theorem hasGlobChar_eq_false {s : String} :
    hasGlobChar s = false ↔ '*' ∉ s.data ∧ '?' ∉ s.data ∧ '[' ∉ s.data := by
  simp [hasGlobChar, List.contains, List.elem_iff]

theorem compileAux_lits : ∀ (n : Nat) (l : List Char), l.length ≤ n →
    '*' ∉ l → '?' ∉ l → '[' ∉ l → compileAux n l = l.map GlobTok.lit := by
  intro n
  induction n with
  | zero =>
    intro l hlen h1 h2 h3
    have hl : l = [] := by cases l <;> simp_all
    subst hl
    rfl
  | succ n ih =>
    intro l hlen h1 h2 h3
    cases l with
    | nil => rfl
    | cons c ps =>
      have hc1 : (c == '*') = false := beq_eq_false_iff_ne.mpr fun h => h1 (by simp [h])
      have hc2 : (c == '?') = false := beq_eq_false_iff_ne.mpr fun h => h2 (by simp [h])
      have hc3 : (c == '[') = false := beq_eq_false_iff_ne.mpr fun h => h3 (by simp [h])
      have hps : ps.length ≤ n := by simpa using hlen
      simp only [compileAux, hc1, hc2, hc3, Bool.false_eq_true, if_false, List.map_cons]
      rw [ih ps hps (fun h => h1 (List.mem_cons_of_mem _ h))
        (fun h => h2 (List.mem_cons_of_mem _ h)) (fun h => h3 (List.mem_cons_of_mem _ h))]

theorem tokMatchAux_lits : ∀ (n : Nat) (l s : List Char), l.length + s.length ≤ n →
    tokMatchAux n (l.map GlobTok.lit) s = (l == s) := by
  intro n
  induction n with
  | zero =>
    intro l s hlen
    have hl : l = [] := by cases l <;> simp_all
    have hs : s = [] := by cases s <;> simp_all
    subst hl
    subst hs
    rfl
  | succ n ih =>
    intro l s hlen
    cases l with
    | nil => cases s <;> rfl
    | cons c l2 =>
      cases s with
      | nil => rfl
      | cons c2 t =>
        have h2 : l2.length + t.length ≤ n := by
          simp only [List.length_cons] at hlen
          omega
        show ((c == c2) && tokMatchAux n (l2.map GlobTok.lit) t) = _
        rw [ih l2 t h2]
        rfl

theorem string_beq_comm_data {a b : String} : (a == b) = (b.data == a.data) := by
  by_cases h : a = b
  · subst h
    simp
  · have hd : b.data ≠ a.data := fun hd => h ((String.ext hd).symm)
    rw [beq_eq_false_iff_ne.mpr h, beq_eq_false_iff_ne.mpr hd]

theorem fnmatchB_noMeta {s pat : String} (h : hasGlobChar pat = false) :
    fnmatchB s pat = (s == pat) := by
  obtain ⟨h1, h2, h3⟩ := hasGlobChar_eq_false.mp h
  rw [fnmatchB, tokMatch, compilePat, compileAux_lits pat.data.length pat.data le_rfl h1 h2 h3,
    List.length_map, tokMatchAux_lits _ _ _ le_rfl, string_beq_comm_data]

theorem data_append (s t : String) : (s ++ t).data = s.data ++ t.data := by
  cases s
  cases t
  rfl

theorem hasGlobChar_append {s t : String} (hs : hasGlobChar s = false)
    (ht : hasGlobChar t = false) : hasGlobChar (s ++ t) = false := by
  rw [hasGlobChar_eq_false] at hs ht ⊢
  rw [data_append]
  simp only [List.mem_append]
  tauto

theorem hasGlobChar_dropRight {s : String} (k : Nat) (hs : hasGlobChar s = false) :
    hasGlobChar (strDropRight s k) = false := by
  rw [hasGlobChar_eq_false] at hs ⊢
  refine ⟨fun h => hs.1 ?_, fun h => hs.2.1 ?_, fun h => hs.2.2 ?_⟩ <;>
    exact List.take_subset _ _ h

theorem hasGlobChar_translate_linux {p : String} (h : hasGlobChar p = false) :
    hasGlobChar (translateExtension "linux" p) = false := by
  have hso : hasGlobChar ".so" = false := by decide
  show hasGlobChar (findTranslate [(".pyd", ".so"), (".dll", ".so")] p) = false
  simp only [findTranslate]
  split
  · exact hasGlobChar_append (hasGlobChar_dropRight _ h) hso
  · split
    · exact hasGlobChar_append (hasGlobChar_dropRight _ h) hso
    · exact h

/-- C1 counterexample: the pattern `a.pyd` has no glob metacharacter and the
path `a.pyd` equals it, yet `matches_pattern("a.pyd", "a.pyd")` is false on
the linux platform, because matching is done against the platform-translated
pattern `a.so`. -/
theorem c1_counterexample :
    hasGlobChar "a.pyd" = false ∧ matchesPattern "linux" "a.pyd" "a.pyd" = false := by
  decide

/-- C1 (amended): for every pattern `p` without glob metacharacters and
every path `f`, `matches_pattern(f, p)` on the linux platform is true iff
`f == t`, `f` starts with `t + "/"`, or `basename(f) == t`, where
`t = translate_extension(p)` is the platform-translated pattern. -/
theorem c1_matches_pattern_nonglob (f p : String) (h : hasGlobChar p = false) :
    matchesPattern "linux" f p =
      ((f == translateExtension "linux" p) ||
       pyStartswith f (translateExtension "linux" p ++ "/") ||
       (pyBasename f == translateExtension "linux" p)) := by
  have ht : hasGlobChar (translateExtension "linux" p) = false := hasGlobChar_translate_linux h
  show ((!hasGlobChar (translateExtension "linux" p) &&
      ((f == translateExtension "linux" p) ||
       pyStartswith f (translateExtension "linux" p ++ "/") ||
       (pyBasename f == translateExtension "linux" p))) ||
    fnmatchB f (translateExtension "linux" p) ||
    fnmatchB (pyBasename f) (translateExtension "linux" p)) = _
  rw [ht, fnmatchB_noMeta ht, fnmatchB_noMeta ht]
  generalize (f == translateExtension "linux" p) = A
  generalize pyStartswith f (translateExtension "linux" p ++ "/") = B
  generalize (pyBasename f == translateExtension "linux" p) = C
  revert A B C
  decide

/-- C1 witness: the amended statement evaluated at `f = "pkg/x.py"`,
`p = "pkg"`. -/
theorem c1_matches_pattern_nonglob_witness :
    matchesPattern "linux" "pkg/x.py" "pkg" =
      (("pkg/x.py" == translateExtension "linux" "pkg") ||
       pyStartswith "pkg/x.py" (translateExtension "linux" "pkg" ++ "/") ||
       (pyBasename "pkg/x.py" == translateExtension "linux" "pkg")) :=
  c1_matches_pattern_nonglob "pkg/x.py" "pkg" (by decide)

/-- C2 counterexample: with both the target-specific and the global fragment
defining `force-include` mappings, `_filter_extras_by_hatch` drops the
candidate `x` even though `x` is a force-include destination of the global
fragment: only the target-specific mapping is consulted (`a or b or {}`). -/
theorem c2_counterexample :
    filterExtrasByHatch ["x"] c2Fragment = [] ∧
    c2Fragment.force_include.map (fun kv => pyStrip kv.2 '/') = ["x"] := by
  decide

/-- C2 (amended): a candidate whose path appears as a destination of the
force-include mapping in effect — the target-specific fragment's mapping
when it is non-empty, otherwise the global fragment's — is always retained
by `_filter_extras_by_hatch`. -/
theorem c2_force_include_retained (extras : List String) (hatch_config : HatchBuildConfig)
    (p : String) (hp : p ∈ extras)
    (hf : p ∈ (effectiveForceInclude hatch_config).map (fun kv => pyStrip kv.2 '/')) :
    p ∈ filterExtrasByHatch extras hatch_config := by
  unfold filterExtrasByHatch
  split
  · exact List.mem_filter.mpr ⟨hp, List.elem_iff.mpr (List.mem_append.mpr (Or.inr hf))⟩
  · split
    · exact List.mem_filter.mpr ⟨hp, List.elem_iff.mpr (List.mem_append.mpr (Or.inr hf))⟩
    · exact hp

/-- C2 witness: the amended statement at a fragment whose target-specific
`force-include` maps onto the candidate `x`. -/
theorem c2_force_include_retained_witness :
    "x" ∈ filterExtrasByHatch ["x"] ⟨⟨some [], none, none, [], [("a", "x")]⟩, [], []⟩ :=
  c2_force_include_retained ["x"] ⟨⟨some [], none, none, [], [("a", "x")]⟩, [], []⟩ "x"
    (by decide) (by decide)

/-- C5: with `only-include = ["pkg", "rust"]` and `exclude = ["target"]`,
the VCS file `rust/target/debug/foo` is never in the expected set computed
by `_sdist_expected_files`: the exclude pattern `target` matches it as an
intermediate path component and removes it even though it falls under the
`rust` scan base. -/
theorem c5_exclude_overrides_scan_base (vcs_files : List String) :
    (sdistExpectedFiles vcs_files c5Fragment).contains "rust/target/debug/foo" = false := by
  have hx : matchesHatchPattern "rust/target/debug/foo" "target" = true := by decide
  cases hc : (sdistExpectedFiles vcs_files c5Fragment).contains "rust/target/debug/foo" with
  | false => rfl
  | true =>
    exfalso
    have hmem : "rust/target/debug/foo" ∈ sdistExpectedFiles vcs_files c5Fragment :=
      List.elem_iff.mp hc
    rw [sdistExpectedFiles] at hmem
    rcases List.mem_append.mp hmem with h1 | h2
    · rw [sdistAfterExcludes] at h1
      have he : (c5Fragment.sdist.exclude.isEmpty) = false := rfl
      rw [he] at h1
      simp only [Bool.not_false, if_true] at h1
      have h2 := (List.mem_filter.mp h1).2
      have he2 : c5Fragment.sdist.exclude = ["target"] := rfl
      rw [he2] at h2
      simp [hx] at h2
    · rw [forceIncludedVcs] at h2
      have he3 : effectiveForceInclude c5Fragment = [] := rfl
      rw [he3] at h2
      simp [concatMap] at h2

/-- C10: the expected set computed by `_sdist_expected_files` only ever
contains VCS-tracked files — in particular a `force-include` destination
with no VCS-tracked file at or under it never enters the expected set, so
the `missing` list of `check_sdist_vs_vcs` also only names VCS files. -/
theorem c10_expected_subset_vcs (vcs_files : List String) (hatch_config : HatchBuildConfig)
    (f : String) :
    (f ∈ sdistExpectedFiles vcs_files hatch_config → f ∈ vcs_files) ∧
    (∀ (plat : String) (sdist_files : List String) (sdist_absent : Option (List String)),
      f ∈ sdistMissing plat sdist_files vcs_files hatch_config sdist_absent → f ∈ vcs_files) := by
  have hbase : f ∈ sdistBaseExpected vcs_files hatch_config.sdist → f ∈ vcs_files := by
    rw [sdistBaseExpected]
    split
    · exact fun h => (List.mem_filter.mp h).1
    · split
      · exact fun h => (List.mem_filter.mp h).1
      · exact fun h => h
  have hexp : f ∈ sdistExpectedFiles vcs_files hatch_config → f ∈ vcs_files := by
    intro h
    rcases List.mem_append.mp h with h1 | h2
    · rw [sdistAfterExcludes] at h1
      split at h1
      · exact hbase (List.mem_filter.mp h1).1
      · exact hbase h1
    · rw [forceIncludedVcs] at h2
      rcases mem_concatMap.mp h2 with ⟨d, _, hfil⟩
      exact (List.mem_filter.mp hfil).1
  refine ⟨hexp, ?_⟩
  intro plat sdist_files sdist_absent hm
  simp only [sdistMissing] at hm
  have h1 := (List.mem_filter.mp hm).1
  have h2 := (List.mem_filter.mp h1).1
  have h3 := mem_sortedDedup.mp h2
  exact hexp (List.mem_filter.mp h3).1

/-- C10 witness: the subset statement evaluated on a one-file VCS list and
the empty fragment. -/
theorem c10_expected_subset_vcs_witness : "a" ∈ (["a"] : List String) :=
  (c10_expected_subset_vcs ["a"] emptyHatchConfig "a").1 (by decide)

/-- C4: reconciling sdist members `["pkg/__init__.py"]` against VCS files
`["pkg/__init__.py", "pyproject.toml"]` with the empty fragment and no extra
absent patterns yields exactly one error: the "missing" diagnostic naming
`pyproject.toml`, and no "extra" diagnostic. -/
theorem c4_missing_pyproject :
    checkSdistVsVcs "linux" ["pkg/__init__.py"] ["pkg/__init__.py", "pyproject.toml"]
      emptyHatchConfig none = ["\nVCS-tracked files missing from sdist: \n\tpyproject.toml"] := by
  decide

/-- C7: `PKG-INFO` in the sdist is never reported: the concrete input yields
zero errors, and in general the `extra` list never contains `PKG-INFO` or
any `.egg-info` path, since those are removed from the cleaned sdist set. -/
theorem c7_generated_metadata_immune :
    (checkSdistVsVcs "linux" ["PKG-INFO", "pkg/__init__.py"] ["pkg/__init__.py"]
      emptyHatchConfig none = []) ∧
    ∀ (plat : String) (sdist_files vcs_files : List String) (hatch_config : HatchBuildConfig)
      (f : String), f ∈ sdistExtra plat sdist_files vcs_files hatch_config →
        f ≠ "PKG-INFO" ∧ pyContains f ".egg-info/" = false ∧
          pyEndswith f ".egg-info" = false := by
  constructor
  · decide
  · intro plat sdist_files vcs_files hatch_config f hmem
    rw [sdistExtra] at hmem
    have hin : f ∈ sortedDedup ((sdistCleanFiles sdist_files).filter
        (fun g => !(vcs_files.contains g))) := by
      split at hmem
      · exact (List.mem_filter.mp hmem).1
      · exact hmem
    have h2 := mem_sortedDedup.mp hin
    have h3 := (List.mem_filter.mp h2).1
    have h4 := (List.mem_filter.mp h3).2
    simp only [Bool.and_eq_true, Bool.not_eq_true'] at h4
    obtain ⟨⟨hg, hc⟩, he⟩ := h4
    refine ⟨?_, hc, he⟩
    intro hfe
    rw [hfe] at hg
    exact absurd hg (by decide)

/-- C7 witness: the general statement evaluated at the stray file
`stray.txt` (an element of a concrete non-empty `extra` list). -/
theorem c7_generated_metadata_immune_witness :
    "stray.txt" ≠ "PKG-INFO" ∧ pyContains "stray.txt" ".egg-info/" = false ∧
      pyEndswith "stray.txt" ".egg-info" = false :=
  c7_generated_metadata_immune.2 "linux" ["stray.txt"] [] emptyHatchConfig "stray.txt"
    (by decide)

/-- C6: `check_absent` never lists a member that also matches a present
pattern (when present patterns are supplied), and every member matching the
absent pattern but no present pattern is listed. -/
theorem c6_absent_present_carveout (plat : String) (files : List String) (pps : List String)
    (pattern f : String) :
    (matchesPattern plat f pattern = true →
      pps.any (fun pp => matchesPattern plat f pp) = true →
      f ∉ absentPatternMatches plat files pattern (some pps)) ∧
    (f ∈ files → matchesPattern plat f pattern = true →
      pps.any (fun pp => matchesPattern plat f pp) = false →
      f ∈ absentPatternMatches plat files pattern (some pps)) := by
  constructor
  · intro hm hany hmem
    simp only [absentPatternMatches, Option.getD_some] at hmem
    split at hmem
    · have h2 := (List.mem_filter.mp hmem).2
      rw [hany] at h2
      simp at h2
    · next hcond =>
      apply hcond
      have hmatching : f ∈ files.filter (fun g => matchesPattern plat g pattern) := hmem
      have h1 : (files.filter (fun g => matchesPattern plat g pattern)).isEmpty = false := by
        cases hIE : (files.filter (fun g => matchesPattern plat g pattern)).isEmpty
        · rfl
        · rw [List.isEmpty_iff.mp hIE] at hmatching
          exact absurd hmatching (List.not_mem_nil f)
      have hppne : pps.isEmpty = false := by
        cases hIE : pps.isEmpty
        · rfl
        · rw [List.isEmpty_iff.mp hIE] at hany
          simp at hany
      rw [h1, hppne]
      rfl
  · intro hf hm hany
    simp only [absentPatternMatches, Option.getD_some]
    split
    · refine List.mem_filter.mpr ⟨List.mem_filter.mpr ⟨hf, hm⟩, ?_⟩
      rw [hany]
      rfl
    · exact List.mem_filter.mpr ⟨hf, hm⟩

/-- C6 witness: both halves evaluated concretely — `docs/a.md` shielded by
the present pattern `docs`, and listed when the present list is `["lib"]`. -/
theorem c6_absent_present_carveout_witness :
    "docs/a.md" ∉ absentPatternMatches "linux" ["docs/a.md"] "docs" (some ["docs"]) ∧
    "docs/a.md" ∈ absentPatternMatches "linux" ["docs/a.md"] "docs" (some ["lib"]) :=
  ⟨(c6_absent_present_carveout "linux" ["docs/a.md"] ["docs"] "docs" "docs/a.md").1
      (by decide) (by decide),
   (c6_absent_present_carveout "linux" ["docs/a.md"] ["lib"] "docs" "docs/a.md").2
      (by decide) (by decide) (by decide)⟩

theorem isPrefixOf_head_eq {a b : Char} {as bs r : List Char}
    (ha : (a :: as).isPrefixOf r = true) (hb : (b :: bs).isPrefixOf r = true) : a = b := by
  cases r with
  | nil => simp [List.isPrefixOf] at ha
  | cons c t =>
    simp only [List.isPrefixOf, Bool.and_eq_true, beq_iff_eq] at ha hb
    rw [ha.1, hb.1]

theorem sdist_suffix_not_whl {n : String}
    (h : (pyEndswith n ".tar.gz" || pyEndswith n ".zip") = true) :
    pyEndswith n ".whl" = false := by
  cases hw : pyEndswith n ".whl"
  · rfl
  · exfalso
    have hw2 : (['l', 'h', 'w', '.'] : List Char).isPrefixOf n.data.reverse = true := hw
    rcases Bool.or_eq_true_iff.mp h with h1 | h2
    · have h1b : (['z', 'g', '.', 'r', 'a', 't', '.'] : List Char).isPrefixOf n.data.reverse
          = true := h1
      exact absurd (isPrefixOf_head_eq hw2 h1b) (by decide)
    · have h2b : (['p', 'i', 'z', '.'] : List Char).isPrefixOf n.data.reverse = true := h2
      exact absurd (isPrefixOf_head_eq hw2 h2b) (by decide)

theorem optOr_none (o : Option String) : optOr o none = o := by
  cases o <;> rfl

theorem optOr_assoc (a b c : Option String) : optOr (optOr a b) c = optOr a (optOr b c) := by
  cases a <;> rfl

theorem foldl_findDistStep (dir : String) :
    ∀ (listing : List String) (acc : Option String × Option String),
      listing.foldl (findDistStep dir) acc =
        (optOr (lastMatchJoin dir
            (fun n => pyEndswith n ".tar.gz" || pyEndswith n ".zip") listing) acc.1,
         optOr (lastMatchJoin dir (fun n => pyEndswith n ".whl") listing) acc.2) := by
  intro listing
  induction listing with
  | nil =>
    intro acc
    simp [lastMatchJoin, optOr]
  | cons x xs ih =>
    intro acc
    rw [List.foldl_cons, ih]
    simp only [lastMatchJoin]
    rw [optOr_assoc, optOr_assoc]
    have hS : (findDistStep dir acc x).1 =
        optOr (if (pyEndswith x ".tar.gz" || pyEndswith x ".zip") = true then
          some (pathJoin dir x) else none) acc.1 := by
      by_cases hc : (pyEndswith x ".tar.gz" || pyEndswith x ".zip") = true
      · rw [findDistStep, if_pos hc, if_pos hc]
        rfl
      · rw [findDistStep, if_neg hc, if_neg hc]
        split <;> rfl
    have hW : (findDistStep dir acc x).2 =
        optOr (if pyEndswith x ".whl" = true then some (pathJoin dir x) else none) acc.2 := by
      by_cases hc : (pyEndswith x ".tar.gz" || pyEndswith x ".zip") = true
      · have hwf : pyEndswith x ".whl" = false := sdist_suffix_not_whl hc
        rw [findDistStep, if_pos hc, hwf]
        rfl
      · rw [findDistStep, if_neg hc]
        split <;> rfl
    rw [hS, hW]

/-- C3 counterexample: with listing `["a.tar.gz", "b.tar.gz"]` in an existing
directory, `find_dist_files` returns the join of the LAST matching name for
the sdist slot, not of the first listed one. -/
theorem c3_counterexample :
    findDistFiles "d" true ["a.tar.gz", "b.tar.gz"] = (some "d/b.tar.gz", none) ∧
    findDistFiles "d" true ["a.tar.gz", "b.tar.gz"] ≠ (some "d/a.tar.gz", none) := by
  decide

/-- C3 (amended): a non-existent directory yields `(None, None)`; on an
existing directory `find_dist_files` returns, for the sdist slot, the LAST
listed file whose name ends in `.tar.gz` or `.zip` and, for the wheel slot,
the LAST listed file whose name ends in `.whl` (each joined onto the
directory; `None` for a slot with no such file). -/
theorem c3_find_dist_files_last (output_dir : String) (listing : List String) :
    findDistFiles output_dir true listing =
      (lastMatchJoin output_dir
        (fun n => pyEndswith n ".tar.gz" || pyEndswith n ".zip") listing,
       lastMatchJoin output_dir (fun n => pyEndswith n ".whl") listing) ∧
    findDistFiles output_dir false listing = (none, none) := by
  constructor
  · have h0 : findDistFiles output_dir true listing =
        listing.foldl (findDistStep output_dir) (none, none) := rfl
    rw [h0, foldl_findDistStep]
    simp [optOr_none]
  · rfl

/-- C8 counterexample: the wheel member-listing performs no extension check:
at the unrecognized path `foo.txt` it succeeds instead of failing with an
unknown-format error naming the path. -/
theorem c8_counterexample :
    listWheelFiles "foo.txt" ["a.py"] = Except.ok ["a.py"] ∧
    pyEndswith "foo.txt" ".whl" = false :=
  ⟨rfl, by decide⟩

/-- C8 (amended): the sdist member-listing fails with an `Unknown sdist
format` error naming the offending path exactly when the path ends in
neither `.tar.gz` nor `.zip`, and succeeds on recognized extensions; the
wheel member-listing never raises an unknown-format error at all. -/
theorem c8_unknown_format (sdist_path : String) (tarMembers : List (String × Bool))
    (zipNames : List String) (h1 : pyEndswith sdist_path ".tar.gz" = false)
    (h2 : pyEndswith sdist_path ".zip" = false) :
    (listSdistFiles sdist_path tarMembers zipNames =
      Except.error ("Unknown sdist format: " ++ sdist_path)) ∧
    (∀ (p : String) (tm : List (String × Bool)) (zn : List String),
      pyEndswith p ".tar.gz" = true ∨ pyEndswith p ".zip" = true →
      ∃ fs, listSdistFiles p tm zn = Except.ok fs) ∧
    (∀ (wp : String) (names : List String),
      ∃ fs, listWheelFiles wp names = Except.ok fs) := by
  refine ⟨?_, ?_, ?_⟩
  · rw [listSdistFiles, h1, h2]
    rfl
  · intro p tm zn hrec
    rw [listSdistFiles]
    by_cases ht : pyEndswith p ".tar.gz" = true
    · rw [if_pos ht]
      exact ⟨_, rfl⟩
    · rw [if_neg ht]
      rcases hrec with h | h
      · exact absurd h ht
      · rw [if_pos h]
        exact ⟨_, rfl⟩
  · intro wp names
    exact ⟨_, rfl⟩

/-- C8 witness: the amended statement at the unrecognized sdist path
`pkg-1.0.rar`. -/
theorem c8_unknown_format_witness :
    listSdistFiles "pkg-1.0.rar" [] [] =
      Except.error ("Unknown sdist format: " ++ "pkg-1.0.rar") :=
  (c8_unknown_format "pkg-1.0.rar" [] [] (by decide) (by decide)).1

theorem list_isEmpty_append (l1 l2 : List String) :
    (l1 ++ l2).isEmpty = (l1.isEmpty && l2.isEmpty) := by
  cases l1 <;> simp

theorem list_isEmpty_eq_decide (l : List String) : l.isEmpty = decide (l = []) := by
  cases l <;> simp

/-- C9: when the VCS lookup fails (`git` missing or the query erroring), the
checking phase of `check_dist` does not abort: the failure is recorded as a
warning message, only the VCS reconciliation is skipped, and the outcome is
exactly the emptiness of the present/absent/wrong-extension checks of both
archive kinds — the warning never counts as an error. -/
theorem c9_vcs_failure (plat sp wp e : String) (sf wf : List String)
    (preBuilt verbose : Bool) (config : CheckConfig) (hatch_config : HatchBuildConfig)
    (gitResult : Option (Int × String × String))
    (h : getVcsFiles gitResult = Except.error e) :
    ((checkDistCore plat (some (sp, sf)) (some (wp, wf)) preBuilt verbose config hatch_config
        (getVcsFiles gitResult)).1 =
      (checkPresent plat sf config.sdist.present "sdist" ++
       checkAbsent plat sf config.sdist.absent "sdist" (some config.sdist.present) ++
       checkWrongPlatformExtensions plat sf "sdist" ++
       checkPresent plat wf config.wheel.present "wheel" ++
       checkAbsent plat wf config.wheel.absent "wheel" (some config.wheel.present) ++
       checkWrongPlatformExtensions plat wf "wheel").isEmpty) ∧
    ("  Warning: could not compare against VCS: " ++ e) ∈
      (checkDistCore plat (some (sp, sf)) (some (wp, wf)) preBuilt verbose config hatch_config
        (getVcsFiles gitResult)).2 := by
  rw [h]
  cases preBuilt <;> cases verbose <;>
    simp [checkDistCore, List.append_assoc, apply_ite Prod.fst, apply_ite Prod.snd]
  all_goals
    constructor
    · simp [list_isEmpty_append, list_isEmpty_eq_decide]
    · split <;> simp

/-- C9 witness: the statement evaluated with the `git`-binary-missing
outcome, empty configuration and one file in each archive. -/
theorem c9_vcs_failure_witness :
    ((checkDistCore "linux" (some ("dist/p-1.tar.gz", ["pkg/a.py"]))
        (some ("p_1-py3-none-any.whl", ["pkg/a.py"])) false false ⟨⟨[], []⟩, ⟨[], []⟩⟩
        emptyHatchConfig (getVcsFiles none)).1 =
      (checkPresent "linux" ["pkg/a.py"] [] "sdist" ++
       checkAbsent "linux" ["pkg/a.py"] [] "sdist" (some []) ++
       checkWrongPlatformExtensions "linux" ["pkg/a.py"] "sdist" ++
       checkPresent "linux" ["pkg/a.py"] [] "wheel" ++
       checkAbsent "linux" ["pkg/a.py"] [] "wheel" (some []) ++
       checkWrongPlatformExtensions "linux" ["pkg/a.py"] "wheel").isEmpty) ∧
    ("  Warning: could not compare against VCS: " ++
        "git not found – only git is currently supported for VCS tracking") ∈
      (checkDistCore "linux" (some ("dist/p-1.tar.gz", ["pkg/a.py"]))
        (some ("p_1-py3-none-any.whl", ["pkg/a.py"])) false false ⟨⟨[], []⟩, ⟨[], []⟩⟩
        emptyHatchConfig (getVcsFiles none)).2 :=
  c9_vcs_failure "linux" "dist/p-1.tar.gz" "p_1-py3-none-any.whl"
    "git not found – only git is currently supported for VCS tracking" ["pkg/a.py"]
    ["pkg/a.py"] false false ⟨⟨[], []⟩, ⟨[], []⟩⟩ emptyHatchConfig none rfl

end CheckDist
